import Mathlib

/-!
Verification of the asset-definition reconciliation core
(src/core/src/handlers/asset-definitions.ts) against its specification.

The two handlers `handleCreateAssetDefinitionRequest` and
`handleAssetDefinitionCreatedEvent` are translated directly from the
TypeScript source.  The collaborators that the source imports but whose
code is not part of the sample (the database client, the IPFS client, the
API-gateway client, ajv, uuid, config) are modelled from the spec's
collaborator contracts in section 6 and carried in an `Env` record of
oracles plus a `State` record of registry/collection contents.
-/

namespace Firefly

/-- Schema documents are opaque payloads here; structural validity is decided
by the ajv oracle carried in the environment. -/
abbrev Schema := String

/-- Index specification as in the handler signature: an ordered field-name
list plus an optional uniqueness flag. -/
structure IndexSpec where
  fields : List String
  unique : Option Bool
  deriving DecidableEq, Repr

/-- Canonical content-addressed payload (IAssetDefinitionRequest): exactly the
fields the request handler serializes and uploads. -/
structure AssetDefinitionPayload where
  assetDefinitionID : String
  name : String
  isContentPrivate : Bool
  isContentUnique : Bool
  descriptionSchema : Option Schema
  contentSchema : Option Schema
  indexes : Option (List IndexSpec)
  deriving DecidableEq, Repr

/-- Registry-side record (IDBAssetDefinition): payload fields plus author,
digest, submission timestamp, optional receipt, optional confirmation
timestamp, block reference, transaction reference, optional participants,
and the conflict marker set by markAssetDefinitionAsConflict. -/
structure DBAssetDefinition where
  assetDefinitionID : String
  author : String
  name : String
  isContentPrivate : Bool
  isContentUnique : Bool
  descriptionSchema : Option Schema
  assetDefinitionHash : String
  contentSchema : Option Schema
  indexes : Option (List IndexSpec)
  submitted : Option Nat
  receipt : Option String
  participants : Option (List String)
  timestamp : Option Nat
  blockNumber : Option Nat
  transactionHash : Option String
  conflict : Bool
  deriving DecidableEq, Repr

/-- Fields of IEventAssetDefinitionCreated consumed by the event handler.
The source converts event.timestamp with Number(...); we keep it numeric. -/
structure EventAssetDefinitionCreated where
  author : String
  assetDefinitionHash : String
  timestamp : Nat
  deriving DecidableEq, Repr

/-- Fields of IDBBlockchainData destructured by the event handler. -/
structure BlockchainData where
  blockNumber : Nat
  transactionHash : String
  deriving DecidableEq, Repr

/-- Response of apiGateway.createAssetDefinition: synchronous confirmation or
asynchronous receipt (IAPIGatewaySyncResponse / IAPIGatewayAsyncResponse). -/
inductive APIGatewayResponse where
  | sync : APIGatewayResponse
  | async (id : String) : APIGatewayResponse
  deriving DecidableEq, Repr

/-- Errors thrown by the request handler (RequestError message, HTTP status):
invalidDescriptionSchema = 'Invalid description schema' 400,
invalidContentSchema = 'Invalid content schema' 400,
invalidIndexes = 'Indexes do not conform to index schema' 400,
nameConflict = 'Asset definition name conflict' 409,
participantsNotRegistered = 'One or more participants are not registered' 409,
missingParticipants = 'Missing asset definition participants' 400. -/
inductive ReqError where
  | invalidDescriptionSchema
  | invalidContentSchema
  | invalidIndexes
  | nameConflict
  | participantsNotRegistered
  | missingParticipants
  deriving DecidableEq, Repr

/-- Errors thrown by the event handler: invalidContent is the RequestError
for content failing the canonical schema; the two conflict errors are the
plain Error throws; contentNotFound models a failed IPFS download. -/
inductive EventError where
  | contentNotFound
  | invalidContent
  | assetDefinitionIDConflict (id : String)
  | assetDefinitionNameConflict (name : String)
  deriving DecidableEq, Repr

/-- Result of the request handler: the new identifier on success, or the
thrown RequestError. -/
inductive CreateResult where
  | ok (assetDefinitionID : String)
  | err (e : ReqError)
  deriving DecidableEq, Repr

/-- Environment of external collaborators, modelled from the spec's
collaborator contracts: ajv validation oracles, the configured protocol,
the member directory, the content store as a map from 32-byte digest to
stored payload, the deterministic content hash, the gateway response, the
uuid generator's next value and the clock. -/
structure Env where
  validSchema : Schema → Bool
  validIndexes : List IndexSpec → Bool
  validAssetDefinition : AssetDefinitionPayload → Bool
  protocol : String
  registeredMembers : List String
  ipfsStore : String → Option AssetDefinitionPayload
  ipfsHash : AssetDefinitionPayload → String
  gatewayResponse : APIGatewayResponse
  newId : String
  now : Nat

/-- Persistent state owned by the Definition Registry: the definition
records and the per-definition instance collections with their indexes. -/
structure State where
  registry : List DBAssetDefinition
  collections : List (String × List IndexSpec)
  deriving DecidableEq, Repr

/-- Modelled from the spec: Registry lookup by identifier
(database.retrieveAssetDefinitionByID). -/
def retrieveAssetDefinitionByID (reg : List DBAssetDefinition) (id : String) :
    Option DBAssetDefinition :=
  reg.find? (fun r => r.assetDefinitionID == id)

/-- Modelled from the spec: Registry lookup by name
(database.retrieveAssetDefinitionByName). -/
def retrieveAssetDefinitionByName (reg : List DBAssetDefinition) (nm : String) :
    Option DBAssetDefinition :=
  reg.find? (fun r => r.name == nm)

/-- Modelled from the spec: Registry upsert keyed by identifier
(database.upsertAssetDefinition) — replace the record with this identifier,
or append a new one. -/
def upsertAssetDefinition : List DBAssetDefinition → DBAssetDefinition →
    List DBAssetDefinition
  | [], r => [r]
  | x :: xs, r =>
    if x.assetDefinitionID == r.assetDefinitionID then r :: xs
    else x :: upsertAssetDefinition xs r

/-- Modelled from the spec: database.markAssetDefinitionAsConflict marks the
record with the given identifier, when one exists, as Conflicted with the
given timestamp; an absent identifier leaves the registry unchanged. -/
def markAssetDefinitionAsConflict : List DBAssetDefinition → String → Nat →
    List DBAssetDefinition
  | [], _, _ => []
  | r :: rs, id, ts =>
    if r.assetDefinitionID == id then
      { r with conflict := true, timestamp := some ts } :: rs
    else r :: markAssetDefinitionAsConflict rs id ts

/-- Modelled from the spec: database.createCollection creates the named
collection with the given indexes idempotently — safe to call when the
collection already exists, in which case nothing changes. -/
def createCollection (cols : List (String × List IndexSpec)) (nm : String)
    (idxs : List IndexSpec) : List (String × List IndexSpec) :=
  if (cols.find? (fun c => c.fst == nm)).isSome then cols
  else cols ++ [(nm, idxs)]

/-- Validation of an optional schema document exactly as the source tests it:
present and rejected by ajv.validateSchema. -/
def badSchemaOpt (env : Env) : Option Schema → Bool
  | some s => !env.validSchema s
  | none => false

/-- Validation of optional index specs exactly as the source tests it:
present and rejected by ajv.validate against the index schema. -/
def badIndexesOpt (env : Env) : Option (List IndexSpec) → Bool
  | some ix => !env.validIndexes ix
  | none => false

/-- Receipt extraction from the gateway response: the receipt handle is kept
exactly when the response was asynchronous. -/
def gatewayReceipt : APIGatewayResponse → Option String
  | .async i => some i
  | .sync => none

/-- Participant validation of the corda block of the request handler. A
present list (an empty array is truthy in the source) has every entry
checked against the member directory; an absent list is
missingParticipants; a non-corda protocol skips the block. -/
def participantsCheck (env : Env) (participants : Option (List String)) :
    Option ReqError :=
  if env.protocol == "corda" then
    match participants with
    | some ps =>
      if ps.all (fun p => env.registeredMembers.contains p) then none
      else some ReqError.participantsNotRegistered
    | none => some ReqError.missingParticipants
  else none

/-- Canonical payload serialized and uploaded by the request handler: the
generated identifier plus the request fields. -/
def requestPayload (env : Env) (nm : String) (priv uniq : Bool)
    (ds cs : Option Schema) (ix : Option (List IndexSpec)) :
    AssetDefinitionPayload :=
  ⟨env.newId, nm, priv, uniq, ds, cs, ix⟩

/-- Pending record persisted by a successful creation request: content digest
and submission timestamp set, the receipt kept exactly for an asynchronous
gateway response, participants stored only under corda, and none of the
confirmation fields populated. -/
def pendingRecord (env : Env) (nm : String) (priv uniq : Bool) (author : String)
    (ds cs : Option Schema) (ix : Option (List IndexSpec))
    (ps : Option (List String)) : DBAssetDefinition :=
  { assetDefinitionID := env.newId
    author := author
    name := nm
    isContentPrivate := priv
    isContentUnique := uniq
    descriptionSchema := ds
    assetDefinitionHash := env.ipfsHash (requestPayload env nm priv uniq ds cs ix)
    contentSchema := cs
    indexes := ix
    submitted := some env.now
    receipt := gatewayReceipt env.gatewayResponse
    participants := if env.protocol == "corda" then ps else none
    timestamp := none
    blockNumber := none
    transactionHash := none
    conflict := false }

/-- Outcome of the request handler: the returned identifier or thrown error,
the registry state afterwards, and the observable calls to the content
store and the ledger gateway. -/
structure CreateOutcome where
  result : CreateResult
  state : State
  uploaded : Option AssetDefinitionPayload
  submitted : Option (String × String × Option (List String) × Bool)
  deriving DecidableEq, Repr

/-- Translation of handleCreateAssetDefinitionRequest: the five precondition
checks in source order with the first failure thrown, then identifier
generation, upload, gateway submission and persistence of the Pending
record (participants stored only under corda). -/
def handleCreateAssetDefinitionRequest (env : Env) (st : State) (nm : String)
    (isContentPrivate isContentUnique : Bool) (author : String)
    (descriptionSchema contentSchema : Option Schema)
    (idxSpecs : Option (List IndexSpec)) (participants : Option (List String))
    (sync : Bool) : CreateOutcome :=
  if badSchemaOpt env descriptionSchema then
    ⟨CreateResult.err ReqError.invalidDescriptionSchema, st, none, none⟩
  else if badSchemaOpt env contentSchema then
    ⟨CreateResult.err ReqError.invalidContentSchema, st, none, none⟩
  else if badIndexesOpt env idxSpecs then
    ⟨CreateResult.err ReqError.invalidIndexes, st, none, none⟩
  else if (retrieveAssetDefinitionByName st.registry nm).isSome then
    ⟨CreateResult.err ReqError.nameConflict, st, none, none⟩
  else
    match participantsCheck env participants with
    | some e => ⟨CreateResult.err e, st, none, none⟩
    | none =>
      let payload := requestPayload env nm isContentPrivate isContentUnique
        descriptionSchema contentSchema idxSpecs
      let record := pendingRecord env nm isContentPrivate isContentUnique author
        descriptionSchema contentSchema idxSpecs participants
      ⟨CreateResult.ok env.newId,
        { st with registry := upsertAssetDefinition st.registry record },
        some payload,
        some (author, env.ipfsHash payload, participants, sync)⟩

/-- Outcome of the event handler: the thrown error when any, the state
afterwards, and the createCollection call made when the finalize step ran. -/
structure EventOutcome where
  result : Option EventError
  state : State
  createdCollection : Option (String × List IndexSpec)
  deriving DecidableEq, Repr

/-- Record written by the finalize step of the event handler: the fetched
payload's fields spread first, then author, digest, numeric timestamp,
block number and transaction hash from the event. -/
def finalizedRecord (payload : AssetDefinitionPayload)
    (event : EventAssetDefinitionCreated) (blockchainData : BlockchainData) :
    DBAssetDefinition :=
  { assetDefinitionID := payload.assetDefinitionID
    author := event.author
    name := payload.name
    isContentPrivate := payload.isContentPrivate
    isContentUnique := payload.isContentUnique
    descriptionSchema := payload.descriptionSchema
    assetDefinitionHash := event.assetDefinitionHash
    contentSchema := payload.contentSchema
    indexes := payload.indexes
    submitted := none
    receipt := none
    participants := none
    timestamp := some event.timestamp
    blockNumber := some blockchainData.blockNumber
    transactionHash := some blockchainData.transactionHash
    conflict := false }

/-- Index set requested for the per-definition instance collection: the
mandatory unique index on assetInstanceID, then the payload's declared
index specs when present. -/
def instanceIndexes (payload : AssetDefinitionPayload) : List IndexSpec :=
  match payload.indexes with
  | some ix => ⟨["assetInstanceID"], some true⟩ :: ix
  | none => [⟨["assetInstanceID"], some true⟩]

/-- Finalize step of the event handler: upsert the confirmed record and
create the instance collection named from the identifier. -/
def finalizeAssetDefinition (st : State) (payload : AssetDefinitionPayload)
    (event : EventAssetDefinitionCreated) (blockchainData : BlockchainData) :
    EventOutcome :=
  let record := finalizedRecord payload event blockchainData
  let collectionName := "asset-instance-" ++ payload.assetDefinitionID
  let idxs := instanceIndexes payload
  { result := none
    state :=
      { registry := upsertAssetDefinition st.registry record
        collections := createCollection st.collections collectionName idxs }
    createdCollection := some (collectionName, idxs) }

/-- Translation of handleAssetDefinitionCreatedEvent: fetch the payload by
digest, validate it, check by identifier (confirmed hit throws the ID
conflict), otherwise check by name (confirmed hit throws the name
conflict; a pending hit marks the incoming identifier as conflicted and
falls through), then finalize and provision the collection. -/
def handleAssetDefinitionCreatedEvent (env : Env) (st : State)
    (event : EventAssetDefinitionCreated) (blockchainData : BlockchainData) :
    EventOutcome :=
  match env.ipfsStore event.assetDefinitionHash with
  | none => ⟨some EventError.contentNotFound, st, none⟩
  | some payload =>
    if !env.validAssetDefinition payload then
      ⟨some EventError.invalidContent, st, none⟩
    else
      match retrieveAssetDefinitionByID st.registry payload.assetDefinitionID with
      | some dbByID =>
        if dbByID.transactionHash.isSome then
          ⟨some (EventError.assetDefinitionIDConflict payload.assetDefinitionID), st, none⟩
        else
          finalizeAssetDefinition st payload event blockchainData
      | none =>
        match retrieveAssetDefinitionByName st.registry payload.name with
        | some dbByName =>
          if dbByName.transactionHash.isSome then
            ⟨some (EventError.assetDefinitionNameConflict dbByName.name), st, none⟩
          else
            let marked := markAssetDefinitionAsConflict st.registry
              payload.assetDefinitionID event.timestamp
            finalizeAssetDefinition { st with registry := marked }
              payload event blockchainData
        | none => finalizeAssetDefinition st payload event blockchainData

/-- Lookup of a collection's index list by collection name. -/
def lookupCollection (cols : List (String × List IndexSpec)) (nm : String) :
    Option (String × List IndexSpec) :=
  cols.find? (fun c => c.fst == nm)

/-- Sample canonical payload: identifier X, name widget. -/
def samplePayloadX : AssetDefinitionPayload :=
  ⟨"X", "widget", false, true, none, none, none⟩

/-- Sample environment: every document valid, ethereum protocol, content
store holding samplePayloadX at digest hX. -/
def sampleEnv : Env :=
  { validSchema := fun _ => true
    validIndexes := fun _ => true
    validAssetDefinition := fun _ => true
    protocol := "ethereum"
    registeredMembers := []
    ipfsStore := fun d => if d = "hX" then some samplePayloadX else none
    ipfsHash := fun _ => "hX"
    gatewayResponse := APIGatewayResponse.sync
    newId := "X"
    now := 3 }

/-- Sample environment whose canonical-schema validation rejects everything. -/
def rejectingEnv : Env :=
  { sampleEnv with validAssetDefinition := fun _ => false }

/-- Registry record named widget under identifier Y, already Confirmed. -/
def confirmedRecordY : DBAssetDefinition :=
  { assetDefinitionID := "Y", author := "B", name := "widget",
    isContentPrivate := false, isContentUnique := true,
    descriptionSchema := none, assetDefinitionHash := "hY",
    contentSchema := none, indexes := none, submitted := some 1,
    receipt := none, participants := none, timestamp := some 2,
    blockNumber := some 1, transactionHash := some "tx1", conflict := false }

/-- Registry record named widget under identifier Y, still Pending. -/
def pendingRecordY : DBAssetDefinition :=
  { confirmedRecordY with
    timestamp := none
    blockNumber := none
    transactionHash := none }

/-- Registry record for identifier X itself, already Confirmed. -/
def confirmedRecordX : DBAssetDefinition :=
  { confirmedRecordY with assetDefinitionID := "X", assetDefinitionHash := "hX" }

/-- State holding only the confirmed record Y. -/
def stateConfirmedY : State := ⟨[confirmedRecordY], []⟩

/-- State holding only the pending record Y. -/
def statePendingY : State := ⟨[pendingRecordY], []⟩

/-- State holding only the confirmed record X. -/
def stateConfirmedX : State := ⟨[confirmedRecordX], []⟩

/-- State with an empty registry and no collections. -/
def emptyState : State := ⟨[], []⟩

/-- Sample event confirming digest hX. -/
def sampleEvent : EventAssetDefinitionCreated := ⟨"A", "hX", 10⟩

/-- Sample blockchain coordinates delivered with the event. -/
def sampleBlock : BlockchainData := ⟨7, "tx2"⟩

/-- Environment for request-path scenarios: only the schema document good is
valid, only empty index-spec lists conform, the gateway answers with an
asynchronous receipt r1, and the uuid generator yields N. -/
def createEnv : Env :=
  { validSchema := fun s => s == "good"
    validIndexes := fun ix => ix.isEmpty
    validAssetDefinition := fun _ => true
    protocol := "ethereum"
    registeredMembers := []
    ipfsStore := fun _ => none
    ipfsHash := fun _ => "hNew"
    gatewayResponse := APIGatewayResponse.async "r1"
    newId := "N"
    now := 42 }

/-- Variant of createEnv on the corda protocol with one registered member. -/
def cordaEnv : Env :=
  { createEnv with protocol := "corda", registeredMembers := ["m1"] }

theorem retrieve_upsert_self (reg : List DBAssetDefinition) (r : DBAssetDefinition) :
    retrieveAssetDefinitionByID (upsertAssetDefinition reg r) r.assetDefinitionID
      = some r := by
  induction reg with
  | nil => simp [upsertAssetDefinition, retrieveAssetDefinitionByID]
  | cons x xs ih =>
    by_cases h : x.assetDefinitionID = r.assetDefinitionID
    · simp [upsertAssetDefinition, retrieveAssetDefinitionByID, h]
    · simpa [upsertAssetDefinition, retrieveAssetDefinitionByID, h] using ih

theorem retrieve_upsert_other (reg : List DBAssetDefinition) (r : DBAssetDefinition)
    (id : String) (h : id ≠ r.assetDefinitionID) :
    retrieveAssetDefinitionByID (upsertAssetDefinition reg r) id
      = retrieveAssetDefinitionByID reg id := by
  induction reg with
  | nil =>
    simp [upsertAssetDefinition, retrieveAssetDefinitionByID, Ne.symm h]
  | cons x xs ih =>
    by_cases hx : x.assetDefinitionID = r.assetDefinitionID
    · simp [upsertAssetDefinition, retrieveAssetDefinitionByID, hx, Ne.symm h]
    · by_cases hxid : x.assetDefinitionID = id
      · simp [upsertAssetDefinition, retrieveAssetDefinitionByID, hx, hxid, h]
      · simpa [upsertAssetDefinition, retrieveAssetDefinitionByID, hx, hxid] using ih

theorem mark_absent_id (reg : List DBAssetDefinition) (id : String) (ts : Nat)
    (h : retrieveAssetDefinitionByID reg id = none) :
    markAssetDefinitionAsConflict reg id ts = reg := by
  induction reg with
  | nil => rfl
  | cons x xs ih =>
    by_cases hx : x.assetDefinitionID = id
    · simp [retrieveAssetDefinitionByID, hx] at h
    · have h' : retrieveAssetDefinitionByID xs id = none := by
        simpa [retrieveAssetDefinitionByID, hx] using h
      simp [markAssetDefinitionAsConflict, hx, ih h']

theorem lookup_createCollection_self (cols : List (String × List IndexSpec))
    (nm : String) (idxs : List IndexSpec) :
    (lookupCollection (createCollection cols nm idxs) nm).isSome = true := by
  by_cases h : (cols.find? (fun c => c.fst == nm)).isSome
  · simp [createCollection, lookupCollection, h]
  · simp only [createCollection, h, if_false, Bool.false_eq_true, ite_false]
    have hn : cols.find? (fun c => c.fst == nm) = none :=
      Option.not_isSome_iff_eq_none.mp (by simpa using h)
    simp [lookupCollection, List.find?_append, hn]

theorem createCollection_of_present (cols : List (String × List IndexSpec))
    (nm : String) (idxs : List IndexSpec)
    (h : (lookupCollection cols nm).isSome = true) :
    createCollection cols nm idxs = cols := by
  have h' : (cols.find? (fun c => c.fst == nm)).isSome = true := h
  simp [createCollection, h']

theorem createCollection_idem (cols : List (String × List IndexSpec))
    (nm : String) (idxs : List IndexSpec) :
    createCollection (createCollection cols nm idxs) nm idxs
      = createCollection cols nm idxs :=
  createCollection_of_present _ _ _ (lookup_createCollection_self cols nm idxs)

theorem instanceIndexes_eq (p : AssetDefinitionPayload) :
    instanceIndexes p
      = IndexSpec.mk ["assetInstanceID"] (some true) :: p.indexes.getD [] := by
  cases h : p.indexes <;> simp [instanceIndexes, h]

/-- Claim C1 counterexample: the claim's premise holds (the incoming
identifier X is unknown to the registry and the name widget is held by an
already Confirmed record), yet the handler does not mark X as Conflicted —
it throws the name-conflict error and leaves the registry without any
record for X. -/
theorem nameConfirmed_not_marked_conflicted :
    retrieveAssetDefinitionByID stateConfirmedY.registry "X" = none
    ∧ retrieveAssetDefinitionByName stateConfirmedY.registry "widget"
        = some confirmedRecordY
    ∧ confirmedRecordY.transactionHash = some "tx1"
    ∧ (handleAssetDefinitionCreatedEvent sampleEnv stateConfirmedY sampleEvent
        sampleBlock).result = some (EventError.assetDefinitionNameConflict "widget")
    ∧ (handleAssetDefinitionCreatedEvent sampleEnv stateConfirmedY sampleEvent
        sampleBlock).state = stateConfirmedY := by
  refine ⟨by decide, by decide, rfl, by decide, by decide⟩

/-- Claim C1 (amended): for every confirmation event whose fetched payload's
identifier matches no existing record but whose name matches an already
Confirmed record, the handler rejects the event with the name-conflict
error and performs no registry mutation: the incoming definition is
neither marked Conflicted nor finalized, and the previously Confirmed
record is unchanged. -/
theorem nameConfirmed_event_rejected (env : Env) (st : State)
    (event : EventAssetDefinitionCreated) (blockchainData : BlockchainData)
    (payload : AssetDefinitionPayload) (dbByName : DBAssetDefinition)
    (hstore : env.ipfsStore event.assetDefinitionHash = some payload)
    (hvalid : env.validAssetDefinition payload = true)
    (hid : retrieveAssetDefinitionByID st.registry payload.assetDefinitionID = none)
    (hname : retrieveAssetDefinitionByName st.registry payload.name = some dbByName)
    (hconf : dbByName.transactionHash.isSome = true) :
    handleAssetDefinitionCreatedEvent env st event blockchainData
      = ⟨some (EventError.assetDefinitionNameConflict dbByName.name), st, none⟩ := by
  simp [handleAssetDefinitionCreatedEvent, hstore, hvalid, hid, hname, hconf]

theorem nameConfirmed_event_rejected_witness :
    handleAssetDefinitionCreatedEvent sampleEnv stateConfirmedY sampleEvent sampleBlock
      = ⟨some (EventError.assetDefinitionNameConflict "widget"), stateConfirmedY, none⟩ :=
  nameConfirmed_event_rejected sampleEnv stateConfirmedY sampleEvent sampleBlock
    samplePayloadX confirmedRecordY (by decide) rfl (by decide) (by decide) rfl

/-- Claim C2: for every confirmation event whose fetched payload's identifier
matches no existing record but whose name matches a still Pending record,
the handler succeeds and finalizes the incoming definition — afterwards the
registry holds, under the incoming identifier, the finalized record
carrying the event's author, digest, timestamp, block number and
transaction hash — and lookup of every other identifier is unchanged, so
the other Pending record's fields are untouched by this call. -/
theorem namePending_incoming_finalized (env : Env) (st : State)
    (event : EventAssetDefinitionCreated) (blockchainData : BlockchainData)
    (payload : AssetDefinitionPayload) (dbByName : DBAssetDefinition)
    (hstore : env.ipfsStore event.assetDefinitionHash = some payload)
    (hvalid : env.validAssetDefinition payload = true)
    (hid : retrieveAssetDefinitionByID st.registry payload.assetDefinitionID = none)
    (hname : retrieveAssetDefinitionByName st.registry payload.name = some dbByName)
    (hpend : dbByName.transactionHash = none) :
    (handleAssetDefinitionCreatedEvent env st event blockchainData).result = none
    ∧ retrieveAssetDefinitionByID
        (handleAssetDefinitionCreatedEvent env st event blockchainData).state.registry
        payload.assetDefinitionID
        = some (finalizedRecord payload event blockchainData)
    ∧ (finalizedRecord payload event blockchainData).author = event.author
    ∧ (finalizedRecord payload event blockchainData).assetDefinitionHash
        = event.assetDefinitionHash
    ∧ (finalizedRecord payload event blockchainData).timestamp = some event.timestamp
    ∧ (finalizedRecord payload event blockchainData).blockNumber
        = some blockchainData.blockNumber
    ∧ (finalizedRecord payload event blockchainData).transactionHash
        = some blockchainData.transactionHash
    ∧ ∀ id, id ≠ payload.assetDefinitionID →
        retrieveAssetDefinitionByID
          (handleAssetDefinitionCreatedEvent env st event blockchainData).state.registry id
        = retrieveAssetDefinitionByID st.registry id := by
  have hmark := mark_absent_id st.registry payload.assetDefinitionID event.timestamp hid
  have hout : handleAssetDefinitionCreatedEvent env st event blockchainData
      = finalizeAssetDefinition st payload event blockchainData := by
    simp [handleAssetDefinitionCreatedEvent, hstore, hvalid, hid, hname, hpend, hmark]
  refine ⟨by rw [hout]; rfl, ?_, rfl, rfl, rfl, rfl, rfl, ?_⟩
  · rw [hout]
    simpa [finalizeAssetDefinition] using
      retrieve_upsert_self st.registry (finalizedRecord payload event blockchainData)
  · intro id hne
    rw [hout]
    simpa [finalizeAssetDefinition] using
      retrieve_upsert_other st.registry (finalizedRecord payload event blockchainData) id hne

theorem namePending_incoming_finalized_witness :
    (handleAssetDefinitionCreatedEvent sampleEnv statePendingY sampleEvent
        sampleBlock).result = none
    ∧ retrieveAssetDefinitionByID
        (handleAssetDefinitionCreatedEvent sampleEnv statePendingY sampleEvent
          sampleBlock).state.registry "X"
        = some (finalizedRecord samplePayloadX sampleEvent sampleBlock)
    ∧ (finalizedRecord samplePayloadX sampleEvent sampleBlock).author = "A"
    ∧ (finalizedRecord samplePayloadX sampleEvent sampleBlock).assetDefinitionHash = "hX"
    ∧ (finalizedRecord samplePayloadX sampleEvent sampleBlock).timestamp = some 10
    ∧ (finalizedRecord samplePayloadX sampleEvent sampleBlock).blockNumber = some 7
    ∧ (finalizedRecord samplePayloadX sampleEvent sampleBlock).transactionHash = some "tx2"
    ∧ ∀ id, id ≠ "X" →
        retrieveAssetDefinitionByID
          (handleAssetDefinitionCreatedEvent sampleEnv statePendingY sampleEvent
            sampleBlock).state.registry id
        = retrieveAssetDefinitionByID statePendingY.registry id :=
  namePending_incoming_finalized sampleEnv statePendingY sampleEvent sampleBlock
    samplePayloadX pendingRecordY (by decide) rfl (by decide) (by decide) rfl

/-- Claim C3: for every confirmation event whose fetched payload's identifier
is found in the registry with the transaction reference already set, the
handler rejects the event with the fatal identifier-conflict error and the
state is left exactly as it was, so a Confirmed record is never
overwritten. -/
theorem confirmedID_event_rejected (env : Env) (st : State)
    (event : EventAssetDefinitionCreated) (blockchainData : BlockchainData)
    (payload : AssetDefinitionPayload) (dbByID : DBAssetDefinition)
    (hstore : env.ipfsStore event.assetDefinitionHash = some payload)
    (hvalid : env.validAssetDefinition payload = true)
    (hid : retrieveAssetDefinitionByID st.registry payload.assetDefinitionID
        = some dbByID)
    (hconf : dbByID.transactionHash.isSome = true) :
    handleAssetDefinitionCreatedEvent env st event blockchainData
      = ⟨some (EventError.assetDefinitionIDConflict payload.assetDefinitionID),
          st, none⟩ := by
  simp [handleAssetDefinitionCreatedEvent, hstore, hvalid, hid, hconf]

theorem confirmedID_event_rejected_witness :
    handleAssetDefinitionCreatedEvent sampleEnv stateConfirmedX sampleEvent sampleBlock
      = ⟨some (EventError.assetDefinitionIDConflict "X"), stateConfirmedX, none⟩ :=
  confirmedID_event_rejected sampleEnv stateConfirmedX sampleEvent sampleBlock
    samplePayloadX confirmedRecordX (by decide) rfl (by decide) rfl

/-- Claim C6: for every confirmation event whose fetched content fails
validation against the canonical asset-definition schema, the handler
fails with the invalid-content error and performs no mutation: the state
is unchanged and no collection is created. -/
theorem invalidContent_no_mutation (env : Env) (st : State)
    (event : EventAssetDefinitionCreated) (blockchainData : BlockchainData)
    (payload : AssetDefinitionPayload)
    (hstore : env.ipfsStore event.assetDefinitionHash = some payload)
    (hvalid : env.validAssetDefinition payload = false) :
    handleAssetDefinitionCreatedEvent env st event blockchainData
      = ⟨some EventError.invalidContent, st, none⟩ := by
  simp [handleAssetDefinitionCreatedEvent, hstore, hvalid]

theorem event_outcome_cases (env : Env) (st : State)
    (event : EventAssetDefinitionCreated) (blockchainData : BlockchainData) :
    (∃ payload st1,
        env.ipfsStore event.assetDefinitionHash = some payload
        ∧ env.validAssetDefinition payload = true
        ∧ st1.collections = st.collections
        ∧ handleAssetDefinitionCreatedEvent env st event blockchainData
            = finalizeAssetDefinition st1 payload event blockchainData)
    ∨ ∃ e, handleAssetDefinitionCreatedEvent env st event blockchainData
        = ⟨some e, st, none⟩ := by
  cases hstore : env.ipfsStore event.assetDefinitionHash with
  | none =>
    exact Or.inr ⟨EventError.contentNotFound,
      by simp [handleAssetDefinitionCreatedEvent, hstore]⟩
  | some payload =>
    cases hvalid : env.validAssetDefinition payload with
    | false =>
      exact Or.inr ⟨EventError.invalidContent,
        by simp [handleAssetDefinitionCreatedEvent, hstore, hvalid]⟩
    | true =>
      cases hid : retrieveAssetDefinitionByID st.registry payload.assetDefinitionID with
      | some dbByID =>
        cases hconf : dbByID.transactionHash.isSome with
        | true =>
          exact Or.inr ⟨EventError.assetDefinitionIDConflict payload.assetDefinitionID,
            by simp [handleAssetDefinitionCreatedEvent, hstore, hvalid, hid, hconf]⟩
        | false =>
          exact Or.inl ⟨payload, st, rfl, hvalid, rfl,
            by simp [handleAssetDefinitionCreatedEvent, hstore, hvalid, hid, hconf]⟩
      | none =>
        cases hname : retrieveAssetDefinitionByName st.registry payload.name with
        | some dbByName =>
          cases hconf : dbByName.transactionHash.isSome with
          | true =>
            exact Or.inr ⟨EventError.assetDefinitionNameConflict dbByName.name,
              by simp [handleAssetDefinitionCreatedEvent, hstore, hvalid, hid, hname, hconf]⟩
          | false =>
            exact Or.inl ⟨payload,
              { st with registry := markAssetDefinitionAsConflict st.registry payload.assetDefinitionID event.timestamp },
              rfl, hvalid, rfl,
              by simp [handleAssetDefinitionCreatedEvent, hstore, hvalid, hid, hname, hconf]⟩
        | none =>
          exact Or.inl ⟨payload, st, rfl, hvalid, rfl,
            by simp [handleAssetDefinitionCreatedEvent, hstore, hvalid, hid, hname]⟩

theorem event_error_state_unchanged (env : Env) (st : State)
    (event : EventAssetDefinitionCreated) (blockchainData : BlockchainData)
    (h : (handleAssetDefinitionCreatedEvent env st event blockchainData).result ≠ none) :
    handleAssetDefinitionCreatedEvent env st event blockchainData
      = ⟨(handleAssetDefinitionCreatedEvent env st event blockchainData).result,
          st, none⟩ := by
  rcases event_outcome_cases env st event blockchainData with
    ⟨p, st1, hstore, hvalid, hcols, heq⟩ | ⟨e, heq⟩
  · rw [heq] at h
    exact absurd rfl h
  · rw [heq]

/-- Claim C4: finalizing the record and provisioning the instance collection
form one logical unit — every delivery whose result is success has both
the finalized record retrievable under the payload's identifier and the
instance collection present, while every failing delivery mutates
nothing: the state comes back unchanged and no collection creation is
requested. -/
theorem finalize_and_collection_atomic (env : Env) (st : State)
    (event : EventAssetDefinitionCreated) (blockchainData : BlockchainData) :
    ((handleAssetDefinitionCreatedEvent env st event blockchainData).result = none →
      ∃ payload, env.ipfsStore event.assetDefinitionHash = some payload
        ∧ retrieveAssetDefinitionByID
            (handleAssetDefinitionCreatedEvent env st event blockchainData).state.registry
            payload.assetDefinitionID
            = some (finalizedRecord payload event blockchainData)
        ∧ (lookupCollection
            (handleAssetDefinitionCreatedEvent env st event blockchainData).state.collections
            ("asset-instance-" ++ payload.assetDefinitionID)).isSome = true)
    ∧ ((handleAssetDefinitionCreatedEvent env st event blockchainData).result ≠ none →
        (handleAssetDefinitionCreatedEvent env st event blockchainData).state = st
        ∧ (handleAssetDefinitionCreatedEvent env st event blockchainData).createdCollection
            = none) := by
  constructor
  · intro h
    rcases event_outcome_cases env st event blockchainData with
      ⟨p, st1, hstore, hvalid, hcols, heq⟩ | ⟨e, heq⟩
    · refine ⟨p, hstore, ?_, ?_⟩
      · rw [heq]
        simpa [finalizeAssetDefinition] using
          retrieve_upsert_self st1.registry (finalizedRecord p event blockchainData)
      · rw [heq]
        simpa [finalizeAssetDefinition] using
          lookup_createCollection_self st1.collections
            ("asset-instance-" ++ p.assetDefinitionID) (instanceIndexes p)
    · rw [heq] at h
      simp at h
  · intro h
    have hshape := event_error_state_unchanged env st event blockchainData h
    exact ⟨by rw [hshape], by rw [hshape]⟩

theorem finalize_and_collection_atomic_witness :
    ∃ payload, sampleEnv.ipfsStore sampleEvent.assetDefinitionHash = some payload
      ∧ retrieveAssetDefinitionByID
          (handleAssetDefinitionCreatedEvent sampleEnv emptyState sampleEvent
            sampleBlock).state.registry
          payload.assetDefinitionID
          = some (finalizedRecord payload sampleEvent sampleBlock)
      ∧ (lookupCollection
          (handleAssetDefinitionCreatedEvent sampleEnv emptyState sampleEvent
            sampleBlock).state.collections
          ("asset-instance-" ++ payload.assetDefinitionID)).isSome = true :=
  (finalize_and_collection_atomic sampleEnv emptyState sampleEvent sampleBlock).1
    (by decide)

/-- Claim C5 counterexample: delivering the sample event to an empty registry
succeeds, but delivering the very same event a second time is rejected
with the identifier-conflict error — not the error-free no-op the claim
states. -/
theorem second_delivery_errors :
    (handleAssetDefinitionCreatedEvent sampleEnv emptyState sampleEvent
        sampleBlock).result = none
    ∧ (handleAssetDefinitionCreatedEvent sampleEnv
        (handleAssetDefinitionCreatedEvent sampleEnv emptyState sampleEvent
          sampleBlock).state
        sampleEvent sampleBlock).result
      = some (EventError.assetDefinitionIDConflict "X") :=
  ⟨by decide, by decide⟩

/-- Claim C5 (amended): after a successful delivery, delivering the same
event again leaves the state exactly as after the first delivery and
requests no collection creation — record content and the instance
collection are not duplicated — but the second delivery is rejected with
the fatal identifier-conflict error rather than tolerated silently. -/
theorem redelivery_unchanged_but_rejected (env : Env) (st : State)
    (event : EventAssetDefinitionCreated) (blockchainData : BlockchainData)
    (h : (handleAssetDefinitionCreatedEvent env st event blockchainData).result = none) :
    ∃ payload, env.ipfsStore event.assetDefinitionHash = some payload
    ∧ handleAssetDefinitionCreatedEvent env
        (handleAssetDefinitionCreatedEvent env st event blockchainData).state
        event blockchainData
      = ⟨some (EventError.assetDefinitionIDConflict payload.assetDefinitionID),
          (handleAssetDefinitionCreatedEvent env st event blockchainData).state,
          none⟩ := by
  rcases event_outcome_cases env st event blockchainData with
    ⟨p, st1, hstore, hvalid, hcols, heq⟩ | ⟨e, heq⟩
  · refine ⟨p, hstore, ?_⟩
    obtain ⟨stA, hstA⟩ :
        ∃ s, (handleAssetDefinitionCreatedEvent env st event blockchainData).state = s :=
      ⟨_, rfl⟩
    rw [hstA]
    have hfind : retrieveAssetDefinitionByID stA.registry p.assetDefinitionID
        = some (finalizedRecord p event blockchainData) := by
      rw [← hstA, heq]
      simpa [finalizeAssetDefinition] using
        retrieve_upsert_self st1.registry (finalizedRecord p event blockchainData)
    simp [handleAssetDefinitionCreatedEvent, hstore, hvalid, hfind, finalizedRecord]
  · rw [heq] at h
    simp at h

theorem redelivery_unchanged_but_rejected_witness :
    ∃ payload, sampleEnv.ipfsStore sampleEvent.assetDefinitionHash = some payload
    ∧ handleAssetDefinitionCreatedEvent sampleEnv
        (handleAssetDefinitionCreatedEvent sampleEnv emptyState sampleEvent
          sampleBlock).state
        sampleEvent sampleBlock
      = ⟨some (EventError.assetDefinitionIDConflict payload.assetDefinitionID),
          (handleAssetDefinitionCreatedEvent sampleEnv emptyState sampleEvent
            sampleBlock).state,
          none⟩ :=
  redelivery_unchanged_but_rejected sampleEnv emptyState sampleEvent sampleBlock
    (by decide)

/-- Claim C10: every successful delivery requests creation of the instance
collection whose name is asset-instance- followed by the definition's
identifier, with index list exactly the mandatory unique index on
assetInstanceID followed by the index specs declared on the definition
(empty extra set when none are declared); and collection creation is
idempotent, so creating an already existing collection changes nothing. -/
theorem collection_deterministic_idempotent (env : Env) (st : State)
    (event : EventAssetDefinitionCreated) (blockchainData : BlockchainData) :
    ((handleAssetDefinitionCreatedEvent env st event blockchainData).result = none →
      ∃ payload, env.ipfsStore event.assetDefinitionHash = some payload
        ∧ (handleAssetDefinitionCreatedEvent env st event
            blockchainData).createdCollection
            = some ("asset-instance-" ++ payload.assetDefinitionID,
                IndexSpec.mk ["assetInstanceID"] (some true) :: payload.indexes.getD []))
    ∧ ∀ cols nm idxs,
        createCollection (createCollection cols nm idxs) nm idxs
          = createCollection cols nm idxs := by
  constructor
  · intro h
    rcases event_outcome_cases env st event blockchainData with
      ⟨p, st1, hstore, hvalid, hcols, heq⟩ | ⟨e, heq⟩
    · refine ⟨p, hstore, ?_⟩
      rw [heq]
      simp [finalizeAssetDefinition, instanceIndexes_eq]
    · rw [heq] at h
      simp at h
  · exact createCollection_idem

theorem collection_deterministic_idempotent_witness :
    ∃ payload, sampleEnv.ipfsStore sampleEvent.assetDefinitionHash = some payload
      ∧ (handleAssetDefinitionCreatedEvent sampleEnv emptyState sampleEvent
          sampleBlock).createdCollection
          = some ("asset-instance-" ++ payload.assetDefinitionID,
              IndexSpec.mk ["assetInstanceID"] (some true) :: payload.indexes.getD []) :=
  (collection_deterministic_idempotent sampleEnv emptyState sampleEvent sampleBlock).1
    (by decide)

theorem invalidContent_no_mutation_witness :
    handleAssetDefinitionCreatedEvent rejectingEnv stateConfirmedY sampleEvent sampleBlock
      = ⟨some EventError.invalidContent, stateConfirmedY, none⟩ :=
  invalidContent_no_mutation rejectingEnv stateConfirmedY sampleEvent sampleBlock
    samplePayloadX (by decide) rfl

theorem create_result_cases (env : Env) (st : State) (nm : String)
    (priv uniq : Bool) (author : String) (ds cs : Option Schema)
    (ix : Option (List IndexSpec)) (ps : Option (List String)) (sync : Bool) :
    (∃ id, (handleCreateAssetDefinitionRequest env st nm priv uniq author ds cs ix
        ps sync).result = CreateResult.ok id)
    ∨ ∃ e, handleCreateAssetDefinitionRequest env st nm priv uniq author ds cs ix
        ps sync = ⟨CreateResult.err e, st, none, none⟩ := by
  by_cases h1 : badSchemaOpt env ds = true
  · exact Or.inr ⟨ReqError.invalidDescriptionSchema,
      by simp [handleCreateAssetDefinitionRequest, h1]⟩
  by_cases h2 : badSchemaOpt env cs = true
  · exact Or.inr ⟨ReqError.invalidContentSchema,
      by simp [handleCreateAssetDefinitionRequest, h1, h2]⟩
  by_cases h3 : badIndexesOpt env ix = true
  · exact Or.inr ⟨ReqError.invalidIndexes,
      by simp [handleCreateAssetDefinitionRequest, h1, h2, h3]⟩
  by_cases h4 : (retrieveAssetDefinitionByName st.registry nm).isSome = true
  · exact Or.inr ⟨ReqError.nameConflict,
      by simp [handleCreateAssetDefinitionRequest, h1, h2, h3, h4]⟩
  cases h5 : participantsCheck env ps with
  | some e =>
    exact Or.inr ⟨e, by simp [handleCreateAssetDefinitionRequest, h1, h2, h3, h4, h5]⟩
  | none =>
    exact Or.inl ⟨env.newId,
      by simp [handleCreateAssetDefinitionRequest, h1, h2, h3, h4, h5]⟩

/-- Claim C7: every creation request that fails a precondition returns its
error with no side effect at all — the state is unchanged and neither a
content-store upload nor a ledger submission is made. -/
theorem create_error_no_side_effects (env : Env) (st : State) (nm : String)
    (priv uniq : Bool) (author : String) (ds cs : Option Schema)
    (ix : Option (List IndexSpec)) (ps : Option (List String)) (sync : Bool)
    (e : ReqError)
    (h : (handleCreateAssetDefinitionRequest env st nm priv uniq author ds cs ix
        ps sync).result = CreateResult.err e) :
    handleCreateAssetDefinitionRequest env st nm priv uniq author ds cs ix ps sync
      = ⟨CreateResult.err e, st, none, none⟩ := by
  rcases create_result_cases env st nm priv uniq author ds cs ix ps sync with
    ⟨id, hok⟩ | ⟨e2, heq⟩
  · rw [hok] at h
    cases h
  · rw [heq] at h ⊢
    simp only [CreateResult.err.injEq] at h
    rw [h]

theorem create_error_no_side_effects_witness :
    handleCreateAssetDefinitionRequest createEnv emptyState "widget" false true "A"
        (some "bad") none none none true
      = ⟨CreateResult.err ReqError.invalidDescriptionSchema, emptyState, none, none⟩ :=
  create_error_no_side_effects createEnv emptyState "widget" false true "A"
    (some "bad") none none none true ReqError.invalidDescriptionSchema (by decide)

/-- Claim C8 counterexample: on the corda protocol a creation request whose
participant list is present but empty passes every check and succeeds —
the handler does not reject an empty participant list with the
missing-participants error, because only an absent list fails the
truthiness test of the source. -/
theorem corda_empty_participants_accepted :
    cordaEnv.protocol = "corda"
    ∧ (handleCreateAssetDefinitionRequest cordaEnv emptyState "widget" false true "A"
        none none none (some []) true).result = CreateResult.ok "N" :=
  ⟨rfl, by decide⟩

/-- Claim C8 (amended): the five preconditions are checked in the stated
order with the first failure winning and each failure yielding its
distinct error; on a ledger model requiring explicit participants the
participant list must be present — an absent list gives the
missing-participants error, a present list (even empty) is only checked
entry by entry against the member directory. -/
theorem create_checks_order (env : Env) (st : State) (nm : String)
    (priv uniq : Bool) (author : String) (ds cs : Option Schema)
    (ix : Option (List IndexSpec)) (ps : Option (List String)) (sync : Bool) :
    (badSchemaOpt env ds = true →
      (handleCreateAssetDefinitionRequest env st nm priv uniq author ds cs ix
        ps sync).result = CreateResult.err ReqError.invalidDescriptionSchema)
    ∧ (badSchemaOpt env ds = false → badSchemaOpt env cs = true →
      (handleCreateAssetDefinitionRequest env st nm priv uniq author ds cs ix
        ps sync).result = CreateResult.err ReqError.invalidContentSchema)
    ∧ (badSchemaOpt env ds = false → badSchemaOpt env cs = false →
        badIndexesOpt env ix = true →
      (handleCreateAssetDefinitionRequest env st nm priv uniq author ds cs ix
        ps sync).result = CreateResult.err ReqError.invalidIndexes)
    ∧ (badSchemaOpt env ds = false → badSchemaOpt env cs = false →
        badIndexesOpt env ix = false →
        (retrieveAssetDefinitionByName st.registry nm).isSome = true →
      (handleCreateAssetDefinitionRequest env st nm priv uniq author ds cs ix
        ps sync).result = CreateResult.err ReqError.nameConflict)
    ∧ (badSchemaOpt env ds = false → badSchemaOpt env cs = false →
        badIndexesOpt env ix = false →
        (retrieveAssetDefinitionByName st.registry nm).isSome = false →
        env.protocol = "corda" → ps = none →
      (handleCreateAssetDefinitionRequest env st nm priv uniq author ds cs ix
        ps sync).result = CreateResult.err ReqError.missingParticipants)
    ∧ (badSchemaOpt env ds = false → badSchemaOpt env cs = false →
        badIndexesOpt env ix = false →
        (retrieveAssetDefinitionByName st.registry nm).isSome = false →
        env.protocol = "corda" → ∀ l, ps = some l →
        l.all (fun p => env.registeredMembers.contains p) = false →
      (handleCreateAssetDefinitionRequest env st nm priv uniq author ds cs ix
        ps sync).result = CreateResult.err ReqError.participantsNotRegistered) := by
  refine ⟨?_, ?_, ?_, ?_, ?_, ?_⟩
  · intro h1
    simp [handleCreateAssetDefinitionRequest, h1]
  · intro h1 h2
    simp [handleCreateAssetDefinitionRequest, h1, h2]
  · intro h1 h2 h3
    simp [handleCreateAssetDefinitionRequest, h1, h2, h3]
  · intro h1 h2 h3 h4
    simp [handleCreateAssetDefinitionRequest, h1, h2, h3, h4]
  · intro h1 h2 h3 h4 h5 h6
    simp [handleCreateAssetDefinitionRequest, participantsCheck, h1, h2, h3, h4, h5, h6]
  · intro h1 h2 h3 h4 h5 l h6 h7
    have h7a : ¬ ∀ x ∈ l, x ∈ env.registeredMembers := by simpa using h7
    simp [handleCreateAssetDefinitionRequest, participantsCheck, h1, h2, h3, h4, h5,
      h6, h7a]

theorem create_checks_order_witness :
    (handleCreateAssetDefinitionRequest cordaEnv emptyState "widget" false true "A"
        none none none none true).result
      = CreateResult.err ReqError.missingParticipants :=
  (create_checks_order cordaEnv emptyState "widget" false true "A"
      none none none none true).2.2.2.2.1 rfl rfl rfl (by decide) rfl rfl

/-- Claim C9: every creation request that passes all preconditions uploads
the canonical payload built from the generated identifier, submits the
author, content digest, participants and sync preference to the gateway,
returns the generated identifier, and persists under it a Pending record
carrying the digest, the submission timestamp and — exactly when the
gateway response was asynchronous — the receipt handle; no transaction
reference is set. -/
theorem create_success_persists_pending (env : Env) (st : State) (nm : String)
    (priv uniq : Bool) (author : String) (ds cs : Option Schema)
    (ix : Option (List IndexSpec)) (ps : Option (List String)) (sync : Bool)
    (h1 : badSchemaOpt env ds = false)
    (h2 : badSchemaOpt env cs = false)
    (h3 : badIndexesOpt env ix = false)
    (h4 : (retrieveAssetDefinitionByName st.registry nm).isSome = false)
    (h5 : participantsCheck env ps = none) :
    (handleCreateAssetDefinitionRequest env st nm priv uniq author ds cs ix
        ps sync).result = CreateResult.ok env.newId
    ∧ (handleCreateAssetDefinitionRequest env st nm priv uniq author ds cs ix
        ps sync).uploaded = some (requestPayload env nm priv uniq ds cs ix)
    ∧ (handleCreateAssetDefinitionRequest env st nm priv uniq author ds cs ix
        ps sync).submitted
        = some (author, env.ipfsHash (requestPayload env nm priv uniq ds cs ix),
            ps, sync)
    ∧ retrieveAssetDefinitionByID
        (handleCreateAssetDefinitionRequest env st nm priv uniq author ds cs ix
          ps sync).state.registry env.newId
        = some (pendingRecord env nm priv uniq author ds cs ix ps)
    ∧ (pendingRecord env nm priv uniq author ds cs ix ps).assetDefinitionHash
        = env.ipfsHash (requestPayload env nm priv uniq ds cs ix)
    ∧ (pendingRecord env nm priv uniq author ds cs ix ps).submitted = some env.now
    ∧ (pendingRecord env nm priv uniq author ds cs ix ps).transactionHash = none
    ∧ ((∃ i, env.gatewayResponse = APIGatewayResponse.async i
          ∧ (pendingRecord env nm priv uniq author ds cs ix ps).receipt = some i)
        ∨ (env.gatewayResponse = APIGatewayResponse.sync
          ∧ (pendingRecord env nm priv uniq author ds cs ix ps).receipt = none)) := by
  have hout : handleCreateAssetDefinitionRequest env st nm priv uniq author ds cs ix
      ps sync
      = ⟨CreateResult.ok env.newId,
          { st with registry := upsertAssetDefinition st.registry (pendingRecord env nm priv uniq author ds cs ix ps) },
          some (requestPayload env nm priv uniq ds cs ix),
          some (author, env.ipfsHash (requestPayload env nm priv uniq ds cs ix), ps, sync)⟩ := by
    simp [handleCreateAssetDefinitionRequest, h1, h2, h3, h4, h5]
  refine ⟨by rw [hout], by rw [hout], by rw [hout], ?_, rfl, rfl, rfl, ?_⟩
  · rw [hout]
    exact retrieve_upsert_self st.registry _
  · cases hg : env.gatewayResponse with
    | sync => exact Or.inr ⟨rfl, by simp [pendingRecord, gatewayReceipt, hg]⟩
    | async i => exact Or.inl ⟨i, rfl, by simp [pendingRecord, gatewayReceipt, hg]⟩

theorem create_success_persists_pending_witness :
    (handleCreateAssetDefinitionRequest createEnv emptyState "widget" false true "A"
        none none none none false).result = CreateResult.ok createEnv.newId
    ∧ (handleCreateAssetDefinitionRequest createEnv emptyState "widget" false true "A"
        none none none none false).uploaded
        = some (requestPayload createEnv "widget" false true none none none)
    ∧ (handleCreateAssetDefinitionRequest createEnv emptyState "widget" false true "A"
        none none none none false).submitted
        = some ("A",
            createEnv.ipfsHash (requestPayload createEnv "widget" false true none none none),
            none, false)
    ∧ retrieveAssetDefinitionByID
        (handleCreateAssetDefinitionRequest createEnv emptyState "widget" false true "A"
          none none none none false).state.registry createEnv.newId
        = some (pendingRecord createEnv "widget" false true "A" none none none none)
    ∧ (pendingRecord createEnv "widget" false true "A" none none none none).assetDefinitionHash
        = createEnv.ipfsHash (requestPayload createEnv "widget" false true none none none)
    ∧ (pendingRecord createEnv "widget" false true "A" none none none none).submitted
        = some createEnv.now
    ∧ (pendingRecord createEnv "widget" false true "A" none none none none).transactionHash
        = none
    ∧ ((∃ i, createEnv.gatewayResponse = APIGatewayResponse.async i
          ∧ (pendingRecord createEnv "widget" false true "A" none none none none).receipt
              = some i)
        ∨ (createEnv.gatewayResponse = APIGatewayResponse.sync
          ∧ (pendingRecord createEnv "widget" false true "A" none none none none).receipt
              = none)) :=
  create_success_persists_pending createEnv emptyState "widget" false true "A"
    none none none none false rfl rfl rfl (by decide) rfl

end Firefly
